import Mathlib

/-!
Shallow embedding of the paper-trail UI source files: the copilot chat
component (`sendMessage`, `initializeGraphGeneration`, `executeGraphGeneration`,
`formatMessageContent`), the papers sidebar (`loadSavedPapers`, `deletePaper`,
the search filter effect), the reader tab store (`useReaderStore`) and the
upload redirect page.  React state updates become explicit state passing; each
network call's outcome is an explicit parameter; every `fetch` performed is
recorded as a `Request` value.
-/

namespace PaperTrail

/-- TS `String.prototype.includes`: substring containment. -/
def strIncludes (s t : String) : Bool := decide (t.data <:+: s.data)

/-- Emptiness of a string, phrased structurally on its character list. -/
def strIsEmpty (s : String) : Bool := s.data.isEmpty

/-- TS `String.prototype.trim`: strip leading and trailing whitespace,
implemented structurally on the character list. -/
def jsTrim (s : String) : String :=
  ⟨((s.data.dropWhile Char.isWhitespace).reverse.dropWhile
      Char.isWhitespace).reverse⟩

/-- TS `String.prototype.toLowerCase`, characterwise. -/
def strToLower (s : String) : String := ⟨s.data.map Char.toLower⟩

/-- TS truthiness of an optional string (`undefined` and `""` are falsy). -/
def strTruthy : Option String → Bool
  | none => false
  | some s => !strIsEmpty s

/-- An HTTP request issued via `fetch`. -/
structure Request where
  method : String
  url : String
deriving Repr, DecidableEq

/-- Payload of a successful `/api/graph-generation` response, as consumed by
`executeGraphGeneration` (`result.addedClips.length`, `result.graphName`,
`result.newEdges.length`). -/
structure GraphGenData where
  addedClipsLen : Nat
  graphName : String
  newEdgesLen : Nat
deriving Repr, DecidableEq

/-- The object returned by `handleToolExecution` (fields `type`, `status`,
`message`, `placeholder`, `workflow` of the three literal shapes in the
source). -/
structure ToolExecResult where
  type : String
  status : Option String
  message : String
  placeholder : Bool
  workflow : Bool
deriving Repr, DecidableEq

/-- The untyped `toolResult` attached to a chat `Message`: either the object
returned by `handleToolExecution` or one of the two result objects built in
`executeGraphGeneration`. -/
inductive ToolResultValue
  | exec (r : ToolExecResult)
  | graphSuccess (data : GraphGenData)
  | graphError (error : String)
deriving Repr, DecidableEq

/-- The `Message` record of `copilot-chat.tsx` (timestamps are modelled as the
`Date.now()` tick, a natural number). -/
structure Message where
  id : String
  content : String
  isUser : Bool
  timestamp : Nat
  toolUsed : Option String := none
  toolResult : Option ToolResultValue := none
deriving Repr, DecidableEq

/-- The `step` union of `GraphGenerationWorkflow`. -/
inductive WorkflowStep
  | topic
  | clipCount
  | graphSelection
  | processing
  | complete
deriving Repr, DecidableEq

/-- The `GraphGenerationWorkflow` record; `availableGraphs` keeps the
`(id, name)` pairs produced by the `graphs.map` in
`initializeGraphGeneration`. -/
structure GraphGenerationWorkflow where
  isActive : Bool
  step : WorkflowStep
  topic : String
  clipCount : Nat
  selectedGraphId : String
  availableGraphs : List (String × String)
deriving Repr, DecidableEq

/-- The `Tool` record (the `icon` React node is presentation-only and
omitted). -/
structure Tool where
  id : String
  name : String
  description : String
  placeholder : String
  category : String
deriving Repr, DecidableEq

def videoGenerationTool : Tool :=
  { id := "video-generation", name := "Video Generation",
    description := "Create educational videos",
    placeholder := "Generate a video explaining...", category := "generation" }

def graphGenerationTool : Tool :=
  { id := "graph-generation", name := "Graph Generation",
    description := "Add to memory graphs",
    placeholder := "Add to graph: concepts about...", category := "visualization" }

def AVAILABLE_TOOLS : List Tool := [videoGenerationTool, graphGenerationTool]

/-- The mutable state of `CopilotChat` touched by the embedded operations. -/
structure ChatState where
  messages : List Message
  inputValue : String
  isLoading : Bool
  selectedTool : Option Tool
  graphWorkflow : GraphGenerationWorkflow
deriving Repr, DecidableEq

/-- Outcome of the `fetch` to `/api/gemini/explain` in `sendMessage`:
`success` is an ok response whose json parsed (with optional `explanation`
field); `notOk` is a non-ok response of the given status whose error json had
the given optional `error` field (`none` when `response.json()` threw and the
`.catch` produced `{}`); `throwErr` is a rejection of `fetch` itself or of
`response.json()` after an ok response, carrying the error's `message` when it
was an `Error`. -/
inductive ExplainOutcome
  | success (explanation : Option String)
  | notOk (status : Nat) (errorField : Option String)
  | throwErr (message : Option String)
deriving Repr, DecidableEq

/-- Outcome of the `fetch` to `/api/memory/graphs` in
`initializeGraphGeneration` (json already mapped to `(id, name)` pairs). -/
inductive GraphsFetchOutcome
  | success (graphs : List (String × String))
  | throwErr
deriving Repr, DecidableEq

/-- Outcome of the DELETE `fetch` in `deletePaper`. -/
inductive DeleteOutcome
  | ok
  | notOk
  | throwErr
deriving Repr, DecidableEq

/-- Outcome of the `fetch` to `/api/graph-generation` in
`executeGraphGeneration`; `throwErr` also covers `response.json()`
rejecting. -/
inductive GraphGenOutcome
  | ok (result : GraphGenData)
  | notOk (errorField : Option String)
  | throwErr (message : Option String)
deriving Repr, DecidableEq

/-- `initializeGraphGeneration`: fetches the available memory graphs and
resets the workflow; on error the workflow still activates with an empty graph
list.  Returns the new workflow value and the requests issued. -/
def initializeGraphGeneration (gf : GraphsFetchOutcome) :
    GraphGenerationWorkflow × List Request :=
  match gf with
  | .success graphs =>
      ({ isActive := true, step := .topic, topic := "", clipCount := 5,
         selectedGraphId := "", availableGraphs := graphs },
       [{ method := "GET", url := "/api/memory/graphs" }])
  | .throwErr =>
      ({ isActive := true, step := .topic, topic := "", clipCount := 5,
         selectedGraphId := "", availableGraphs := [] },
       [{ method := "GET", url := "/api/memory/graphs" }])

/-- `handleToolExecution`: returns the tool result object, the workflow update
it performed (only the graph tool updates the workflow), and the requests
issued. -/
def handleToolExecution (tool : Tool) (prompt : String)
    (gf : GraphsFetchOutcome) :
    ToolExecResult × Option GraphGenerationWorkflow × List Request :=
  if tool.id = "video-generation" then
    ({ type := "video", status := some "placeholder",
       message := "Video generation tool activated for: \"" ++ prompt ++
         "\". This is a placeholder - video generation will be implemented soon.",
       placeholder := true, workflow := false }, none, [])
  else if tool.id = "graph-generation" then
    let res := initializeGraphGeneration gf
    ({ type := "graph", status := some "workflow",
       message := "Starting graph generation workflow. Please follow the steps below to configure your graph generation.",
       placeholder := false, workflow := true }, some res.1, res.2)
  else
    ({ type := "error", status := none, message := "Unknown tool selected",
       placeholder := false, workflow := false }, none, [])

/-- The fallback text built in the `catch` of `sendMessage` from the thrown
error's optional `message`. -/
def sendMessageErrorContent (message : Option String) : String :=
  match message with
  | some m =>
      if strIncludes m "API Error" then m ++ ". Please try again."
      else "Sorry, I encountered an error. Please try again."
  | none => "Sorry, I encountered an error. Please try again."

/-- The `Error` message thrown on a non-ok explain response:
`errorData.error || "API Error: " + status`. -/
def apiErrorMessage (status : Nat) (errorField : Option String) : String :=
  match errorField with
  | some e => if e.isEmpty then "API Error: " ++ toString status else e
  | none => "API Error: " ++ toString status

/-- `sendMessage`: the guard, the appended user message, and either the tool
path or the explain request with its success and failure paths; the `finally`
resets `isLoading`.  Returns the new state and the requests issued. -/
def sendMessage (now : Nat) (net : ExplainOutcome) (gf : GraphsFetchOutcome)
    (s : ChatState) : ChatState × List Request :=
  if strIsEmpty (jsTrim s.inputValue) || s.isLoading then (s, [])
  else
    let userMessage : Message :=
      { id := toString now, content := s.inputValue, isUser := true,
        timestamp := now, toolUsed := s.selectedTool.map Tool.id }
    let currentInput := s.inputValue
    let s1 : ChatState :=
      { s with
        messages := s.messages ++ [userMessage], inputValue := "",
        isLoading := true }
    match s.selectedTool with
    | some tool =>
        let res := handleToolExecution tool currentInput gf
        let aiResponse : Message :=
          { id := toString (now + 1), content := res.1.message, isUser := false,
            timestamp := now, toolResult := some (.exec res.1) }
        ({ s1 with
           messages := s1.messages ++ [aiResponse],
           selectedTool := none,
           graphWorkflow := res.2.1.getD s1.graphWorkflow,
           isLoading := false }, res.2.2)
    | none =>
        let req : Request := { method := "POST", url := "/api/gemini/explain" }
        match net with
        | .success explanation =>
            let aiResponse : Message :=
              { id := toString (now + 1),
                content := explanation.getD "Sorry, I could not generate a response.",
                isUser := false, timestamp := now }
            ({ s1 with
               messages := s1.messages ++ [aiResponse],
               isLoading := false }, [req])
        | .notOk status errorField =>
            let errorMessage : Message :=
              { id := toString (now + 1),
                content := sendMessageErrorContent (some (apiErrorMessage status errorField)),
                isUser := false, timestamp := now }
            ({ s1 with
               messages := s1.messages ++ [errorMessage],
               isLoading := false }, [req])
        | .throwErr message =>
            let errorMessage : Message :=
              { id := toString (now + 1),
                content := sendMessageErrorContent message,
                isUser := false, timestamp := now }
            ({ s1 with
               messages := s1.messages ++ [errorMessage],
               isLoading := false }, [req])

/-- Whether an explain outcome is a failure (non-ok response, or a throw from
`fetch` or `json`). -/
def ExplainOutcome.isFailure : ExplainOutcome → Bool
  | .success _ => false
  | .notOk _ _ => true
  | .throwErr _ => true

/-- The `status` union of a `SavedPaper` in the papers sidebar. -/
inductive PaperStatus
  | processing
  | completed
  | error
deriving Repr, DecidableEq

/-- The `SavedPaper` record of the papers sidebar. -/
structure SavedPaper where
  id : String
  title : String
  authors : List String
  abstract : String
  url : String
  savedAt : String
  status : PaperStatus
deriving Repr, DecidableEq

/-- Outcome of the `fetch` to `/api/papers` in `loadSavedPapers`; on an ok
response `data.papers` may be absent (`data.papers || []`). -/
inductive PapersFetchOutcome
  | ok (papers : Option (List SavedPaper))
  | notOk
  | throwErr
deriving Repr, DecidableEq

/-- `loadSavedPapers`: fetches the papers list; any failure yields the empty
list.  Returns the resulting `papers` state and the requests issued. -/
def loadSavedPapers (net : PapersFetchOutcome) :
    List SavedPaper × List Request :=
  match net with
  | .ok papersOpt => (papersOpt.getD [], [{ method := "GET", url := "/api/papers" }])
  | .notOk => ([], [{ method := "GET", url := "/api/papers" }])
  | .throwErr => ([], [{ method := "GET", url := "/api/papers" }])

/-- `deletePaper`: after the `window.confirm` guard, issues the DELETE and on
ok filters the paper out of the list; failures only log.  Returns the
resulting papers list, the requests issued and the console-error log lines. -/
def deletePaper (papers : List SavedPaper) (paperId : String)
    (confirmed : Bool) (net : DeleteOutcome) :
    List SavedPaper × List Request × List String :=
  if !confirmed then (papers, [], [])
  else
    let req : Request := { method := "DELETE", url := "/api/papers/" ++ paperId }
    match net with
    | .ok => (papers.filter fun paper => paper.id != paperId, [req], [])
    | .notOk => (papers, [req], ["Failed to delete paper"])
    | .throwErr => (papers, [req], ["Error deleting paper:"])

/-- The search-filter effect of the papers sidebar: value of `filteredPapers`
as a function of `papers` and `searchQuery`. -/
def computeFilteredPapers (papers : List SavedPaper) (searchQuery : String) :
    List SavedPaper :=
  if !strIsEmpty (jsTrim searchQuery) then
    papers.filter fun paper =>
      strIncludes (strToLower paper.title) (strToLower searchQuery) ||
        paper.authors.any fun author =>
          strIncludes (strToLower author) (strToLower searchQuery)
  else papers

/-- Spec-side reading of the search filter: the lowercased title contains the
lowercased query, or some author's lowercased name does. -/
def matchesQuery (q : String) (p : SavedPaper) : Prop :=
  (strToLower q).data <:+: (strToLower p.title).data ∨
    ∃ a ∈ p.authors, (strToLower q).data <:+: (strToLower a).data

/-- The `PaperType` record of the reader store.  `sections` is an untyped
array whose elements no operation in the repository inspects. -/
structure PaperType where
  _id : String
  title : String
  authors : Sum (List String) String
  abstract : Option String := none
  year : Option String := none
  venue : Option String := none
  url : Option String := none
  filePath : Option String := none
  sections : Option (List Unit) := none
  originalName : Option String := none
deriving Repr, DecidableEq

/-- An entry of `openPapers` in the reader store. -/
structure OpenPaperTab where
  id : String
  title : String
  paper : PaperType
deriving Repr, DecidableEq

/-- The state of `useReaderStore`. -/
structure ReaderState where
  openPapers : List OpenPaperTab
  activePaperId : String
deriving Repr, DecidableEq

/-- The store's initial state. -/
def readerInitialState : ReaderState := { openPapers := [], activePaperId := "" }

/-- `setOpenPapers` of the reader store. -/
def setOpenPapers (papers : List OpenPaperTab) (s : ReaderState) : ReaderState :=
  { s with openPapers := papers }

/-- `setActivePaperId` of the reader store. -/
def setActivePaperId (id : String) (s : ReaderState) : ReaderState :=
  { s with activePaperId := id }

/-- `addPaper` of the reader store: appends only when no open paper has the
same id. -/
def addPaper (paper : OpenPaperTab) (s : ReaderState) : ReaderState :=
  if !(s.openPapers.any fun p => p.id == paper.id) then
    { s with openPapers := s.openPapers ++ [paper] }
  else s

/-- `removePaper` of the reader store. -/
def removePaper (id : String) (s : ReaderState) : ReaderState :=
  { openPapers := s.openPapers.filter fun p => p.id != id,
    activePaperId := if s.activePaperId == id then "" else s.activePaperId }

/-- `clearAllPapers` of the reader store. -/
def clearAllPapers (_s : ReaderState) : ReaderState :=
  { openPapers := [], activePaperId := "" }

/-- The state after `setGraphWorkflow(prev => ({ ...prev, step: 'processing' }))`,
the first update `executeGraphGeneration` performs past its guard. -/
def graphGenProcessingState (s : ChatState) : ChatState :=
  { s with
    graphWorkflow := { s.graphWorkflow with step := WorkflowStep.processing } }

/-- `executeGraphGeneration`: past the guard, sets the step to `processing`,
issues the POST, and on each outcome appends one result message and
deactivates the workflow (`complete` on ok, back to `topic` on error).
Returns the successive states set by the function (after the processing
update, then after the final updates) and the requests issued; the guard
performs no update and issues nothing. -/
def executeGraphGeneration (now : Nat) (paperId : Option String)
    (net : GraphGenOutcome) (s : ChatState) : List ChatState × List Request :=
  if !strTruthy paperId || strIsEmpty s.graphWorkflow.topic ||
      strIsEmpty s.graphWorkflow.selectedGraphId then
    ([], [])
  else
    let s1 := graphGenProcessingState s
    let req : Request := { method := "POST", url := "/api/graph-generation" }
    match net with
    | .ok result =>
        let successMessage : Message :=
          { id := toString (now + 1),
            content := "✅ Graph generation completed successfully!\n\nAdded " ++
              toString result.addedClipsLen ++ " clips to \"" ++
              result.graphName ++ "\" graph.\nCreated " ++
              toString result.newEdgesLen ++
              " new connections.\n\nTopic: \"" ++ s.graphWorkflow.topic ++
              "\"\nClips generated: " ++ toString result.addedClipsLen,
            isUser := false, timestamp := now,
            toolResult := some (.graphSuccess result) }
        ([s1,
          { s1 with
            messages := s1.messages ++ [successMessage],
            graphWorkflow :=
              { s1.graphWorkflow with
                step := WorkflowStep.complete, isActive := false } }],
         [req])
    | .notOk errorField =>
        let e := errorField.getD "undefined"
        let errorMessage : Message :=
          { id := toString (now + 1),
            content := "❌ Graph generation failed: " ++ e,
            isUser := false, timestamp := now,
            toolResult := some (.graphError e) }
        ([s1,
          { s1 with
            messages := s1.messages ++ [errorMessage],
            graphWorkflow :=
              { s1.graphWorkflow with
                step := WorkflowStep.topic, isActive := false } }],
         [req])
    | .throwErr message =>
        let e := message.getD "Unknown error"
        let errorMessage : Message :=
          { id := toString (now + 1),
            content := "❌ Graph generation failed: " ++ e,
            isUser := false, timestamp := now,
            toolResult := some (.graphError e) }
        ([s1,
          { s1 with
            messages := s1.messages ++ [errorMessage],
            graphWorkflow :=
              { s1.graphWorkflow with
                step := WorkflowStep.topic, isActive := false } }],
         [req])

/-- The workflow step `executeGraphGeneration` ends on for each outcome. -/
def expectedFinalStep : GraphGenOutcome → WorkflowStep
  | .ok _ => WorkflowStep.complete
  | .notOk _ => WorkflowStep.topic
  | .throwErr _ => WorkflowStep.topic

/-- An HTTP request serving the paper-listing endpoint. -/
def isPaperListingRequest (r : Request) : Prop :=
  r.method = "GET" ∧ r.url = "/api/papers"

/-- An HTTP request serving the paper-deletion endpoint. -/
def isPaperDeletionRequest (r : Request) : Prop :=
  r.method = "DELETE" ∧ ∃ pid, r.url = "/api/papers/" ++ pid

/-- An HTTP request serving the AI-explanation endpoint. -/
def isAIExplanationRequest (r : Request) : Prop :=
  r.method = "POST" ∧ r.url = "/api/gemini/explain"

/-- An HTTP request serving graph generation: listing the available memory
graphs or running the generation itself. -/
def isGraphGenerationRequest (r : Request) : Prop :=
  (r.method = "GET" ∧ r.url = "/api/memory/graphs") ∨
    (r.method = "POST" ∧ r.url = "/api/graph-generation")

/-- A request to one of the four endpoint groups named by the spec. -/
def allowedEndpoint (r : Request) : Prop :=
  isPaperListingRequest r ∨ isPaperDeletionRequest r ∨
    isAIExplanationRequest r ∨ isGraphGenerationRequest r

/-- An action performed on the Next.js router. -/
inductive RouterAction
  | replace (url : String)
  | push (url : String)
deriving Repr, DecidableEq

/-- The router actions performed by `UploadRedirectPage`'s mount effect. -/
def uploadRedirectPageMountEffect : List RouterAction :=
  [RouterAction.replace "/reader"]

/-- The static placeholder text `UploadRedirectPage` renders. -/
def uploadRedirectPageRenderText : String := "Redirecting to Reader..."

/-- The backtick character, written by code point. -/
def backtickChar : Char := Char.ofNat 96

/-- Lazy body search for a span replacement: given the delimiter `d :: ds`,
scan `s` for the closing delimiter, shortest first, the body not crossing a
newline (JS regex `.` does not match a newline).  Returns the body and the
total number of characters of `s` consumed, closing delimiter included. -/
def scanBody (d : Char) (ds : List Char) : List Char → Option (List Char × Nat)
  | [] => none
  | c :: cs =>
      if (d :: ds).isPrefixOf (c :: cs) then some ([], ds.length + 1)
      else if c = '\n' then none
      else (scanBody d ds cs).map fun p => (c :: p.1, p.2 + 1)

/-- One global replacement `s.replace(/D(.*?)D/g, pre + "$1" + post)` for a
literal delimiter `D = d :: ds`: scan left to right; at each position where
the delimiter matches and a lazy body with a closing delimiter follows, emit
`pre ++ body ++ post` and continue after the match (replacements are never
rescanned); otherwise emit the character and move on. -/
def replaceSpans (d : Char) (ds pre post : List Char) : List Char → List Char
  | [] => []
  | c :: cs =>
      if (d :: ds).isPrefixOf (c :: cs) then
        match scanBody d ds (cs.drop ds.length) with
        | some (body, k) =>
            pre ++ body ++ post ++
              replaceSpans d ds pre post ((cs.drop ds.length).drop k)
        | none => c :: replaceSpans d ds pre post cs
      else c :: replaceSpans d ds pre post cs
termination_by s => s.length
decreasing_by
  · simp only [List.length_drop, List.length_cons]
    omega
  · simp only [List.length_cons]
    omega
  · simp only [List.length_cons]
    omega

/-- The global replacement `s.replace(/\n/g, "<br>")`. -/
def replaceNewlines : List Char → List Char
  | [] => []
  | c :: cs =>
      if c = '\n' then '<' :: 'b' :: 'r' :: '>' :: replaceNewlines cs
      else c :: replaceNewlines cs

/-- The opening tag the code-span replacement inserts. -/
def codeOpenTag : String :=
  "<code style=\"background: rgba(0,0,0,0.1); padding: 2px 4px; border-radius: 3px; font-family: monospace;\">"

/-- The replacement `content.replace(/\*\*(.*?)\*\*/g, "<strong>$1</strong>")`. -/
def boldPass (l : List Char) : List Char :=
  replaceSpans '*' ['*'] "<strong>".data "</strong>".data l

/-- The replacement `.replace(/\*(.*?)\*/g, "<em>$1</em>")`. -/
def emPass (l : List Char) : List Char :=
  replaceSpans '*' [] "<em>".data "</em>".data l

/-- The replacement of code spans by the styled code element. -/
def codePass (l : List Char) : List Char :=
  replaceSpans backtickChar [] codeOpenTag.data "</code>".data l

/-- `formatMessageContent`: the four global replacements applied in order —
bold spans, then italic spans, then code spans, then newlines. -/
def formatMessageContent (content : String) : String :=
  ⟨replaceNewlines (codePass (emPass (boldPass content.data)))⟩

/-- A character that no replacement pattern can take part in: not a star, not
a backtick, not a newline. -/
def plainChar (c : Char) : Bool :=
  !(c == '*') && !(c == backtickChar) && !(c == '\n')

/-- A string of plain characters only. -/
def plainStr (s : String) : Bool := s.data.all plainChar

/-- List-level reading of plainness. -/
def PlainL (l : List Char) : Prop :=
  ∀ c ∈ l, c ≠ '*' ∧ c ≠ backtickChar ∧ c ≠ '\n'

/-- A sample empty graph workflow, used in concrete witnesses. -/
def emptyWorkflow : GraphGenerationWorkflow :=
  { isActive := false, step := .topic, topic := "", clipCount := 5,
    selectedGraphId := "", availableGraphs := [] }

/-- A sample chat state with pending input, used in concrete witnesses. -/
def chatState0 : ChatState :=
  { messages := [], inputValue := "hi", isLoading := false,
    selectedTool := none, graphWorkflow := emptyWorkflow }

/-- A sample reader-store paper, used in concrete witnesses. -/
def samplePaperType : PaperType :=
  { _id := "a", title := "t", authors := Sum.inl [] }

/-- A sample reader-store tab, used in concrete witnesses. -/
def sampleTab : OpenPaperTab :=
  { id := "a", title := "t", paper := samplePaperType }

/-- A sample sidebar paper, used in concrete witnesses. -/
def samplePaper1 : SavedPaper :=
  { id := "1", title := "Neural Nets", authors := ["Ada"], abstract := "",
    url := "", savedAt := "", status := PaperStatus.completed }

/-- A sample chat state with a fully configured graph workflow, used in
concrete witnesses. -/
def chatState1 : ChatState :=
  { messages := [], inputValue := "", isLoading := false,
    selectedTool := none,
    graphWorkflow :=
      { isActive := true, step := WorkflowStep.graphSelection, topic := "t",
        clipCount := 5, selectedGraphId := "g",
        availableGraphs := [("g", "G")] } }

end PaperTrail

namespace PaperTrail

/-- C1: when `isLoading` is true or the trimmed input is empty, `sendMessage`
returns at its guard: the state is unchanged and no request is issued, so a
second explanation request can never start while one is in flight. -/
theorem sendMessage_guard_no_request (now : Nat) (net : ExplainOutcome)
    (gf : GraphsFetchOutcome) (s : ChatState)
    (h : strIsEmpty (jsTrim s.inputValue) = true ∨ s.isLoading = true) :
    sendMessage now net gf s = (s, []) := by
  unfold sendMessage
  rcases h with h | h <;> simp [h]

theorem sendMessage_guard_no_request_witness :
    (ChatState.isLoading
        { messages := [], inputValue := "hi", isLoading := true,
          selectedTool := none,
          graphWorkflow :=
            { isActive := false, step := .topic, topic := "", clipCount := 5,
              selectedGraphId := "", availableGraphs := [] } } = true) ∧
      sendMessage 0 (.success none) .throwErr
          { messages := [], inputValue := "hi", isLoading := true,
            selectedTool := none,
            graphWorkflow :=
              { isActive := false, step := .topic, topic := "", clipCount := 5,
                selectedGraphId := "", availableGraphs := [] } } =
        ({ messages := [], inputValue := "hi", isLoading := true,
           selectedTool := none,
           graphWorkflow :=
             { isActive := false, step := .topic, topic := "", clipCount := 5,
               selectedGraphId := "", availableGraphs := [] } }, []) :=
  ⟨rfl, sendMessage_guard_no_request 0 (.success none) .throwErr _ (Or.inr rfl)⟩

/-- C2: when the explain request fails (non-ok response, or `fetch`/`json`
throws), `sendMessage` appends the user message and exactly one fallback
assistant message, issues exactly the one explain request, and resets
`isLoading` to false. -/
theorem sendMessage_failure_fallback (now : Nat) (net : ExplainOutcome)
    (gf : GraphsFetchOutcome) (s : ChatState)
    (hTool : s.selectedTool = none)
    (hInput : strIsEmpty (jsTrim s.inputValue) = false)
    (hLoad : s.isLoading = false)
    (hFail : net.isFailure = true) :
    ∃ fallback : Message,
      (sendMessage now net gf s).1.messages =
          s.messages ++
            [{ id := toString now, content := s.inputValue, isUser := true,
               timestamp := now, toolUsed := none }, fallback] ∧
        fallback.isUser = false ∧
        (sendMessage now net gf s).1.isLoading = false ∧
        (sendMessage now net gf s).2 =
          [{ method := "POST", url := "/api/gemini/explain" }] := by
  have hcond : (strIsEmpty (jsTrim s.inputValue) || s.isLoading) = false := by
    simp [hInput, hLoad]
  cases net with
  | success e => simp [ExplainOutcome.isFailure] at hFail
  | notOk status errorField =>
      refine ⟨{ id := toString (now + 1),
                content := sendMessageErrorContent
                  (some (apiErrorMessage status errorField)),
                isUser := false, timestamp := now }, ?_, rfl, ?_, ?_⟩ <;>
        simp [sendMessage, hcond, hTool]
  | throwErr m =>
      refine ⟨{ id := toString (now + 1),
                content := sendMessageErrorContent m,
                isUser := false, timestamp := now }, ?_, rfl, ?_, ?_⟩ <;>
        simp [sendMessage, hcond, hTool]

theorem sendMessage_failure_fallback_witness :
    (chatState0.selectedTool = none ∧
        strIsEmpty (jsTrim chatState0.inputValue) = false ∧
        chatState0.isLoading = false ∧
        (ExplainOutcome.throwErr none).isFailure = true) ∧
      (∃ fallback : Message,
        (sendMessage 7 (.throwErr none) .throwErr chatState0).1.messages =
            chatState0.messages ++
              [{ id := toString 7, content := chatState0.inputValue,
                 isUser := true, timestamp := 7, toolUsed := none }, fallback] ∧
          fallback.isUser = false ∧
          (sendMessage 7 (.throwErr none) .throwErr chatState0).1.isLoading = false ∧
          (sendMessage 7 (.throwErr none) .throwErr chatState0).2 =
            [{ method := "POST", url := "/api/gemini/explain" }]) :=
  ⟨⟨rfl, by decide, rfl, rfl⟩,
    sendMessage_failure_fallback 7 (.throwErr none) .throwErr chatState0 rfl
      (by decide) rfl rfl⟩

/-- C4: with the confirm dialog accepted, a non-ok or throwing DELETE leaves
the papers list unchanged and produces exactly one console-error log, while an
ok DELETE yields exactly the previous list with every paper of that id
removed, preserving the original order. -/
theorem deletePaper_spec (papers : List SavedPaper) (pid : String)
    (net : DeleteOutcome) :
    (net ≠ DeleteOutcome.ok →
        (deletePaper papers pid true net).1 = papers ∧
          (deletePaper papers pid true net).2.2.length = 1) ∧
      (net = DeleteOutcome.ok →
        (∀ p, p ∈ (deletePaper papers pid true net).1 ↔
            p ∈ papers ∧ p.id ≠ pid) ∧
          List.Sublist (deletePaper papers pid true net).1 papers) := by
  constructor
  · intro hne
    cases net with
    | ok => exact absurd rfl hne
    | notOk => exact ⟨rfl, rfl⟩
    | throwErr => exact ⟨rfl, rfl⟩
  · intro he
    subst he
    constructor
    · intro p
      simp [deletePaper, List.mem_filter]
    · exact List.filter_sublist papers

theorem deletePaper_spec_witness :
    (DeleteOutcome.notOk ≠ DeleteOutcome.ok ∧
        (deletePaper [] "p1" true DeleteOutcome.notOk).1 = [] ∧
          (deletePaper [] "p1" true DeleteOutcome.notOk).2.2.length = 1) :=
  ⟨by decide,
    (deletePaper_spec [] "p1" DeleteOutcome.notOk).1 (by decide)⟩

/-- C7: every reader-store operation preserves distinctness of the open-paper
ids, and `addPaper` with an already-present id returns the state unchanged. -/
theorem readerStore_id_nodup (s : ReaderState) (i : String)
    (paper : OpenPaperTab)
    (h : (s.openPapers.map OpenPaperTab.id).Nodup) :
    ((setActivePaperId i s).openPapers.map OpenPaperTab.id).Nodup ∧
      ((addPaper paper s).openPapers.map OpenPaperTab.id).Nodup ∧
      ((removePaper i s).openPapers.map OpenPaperTab.id).Nodup ∧
      ((clearAllPapers s).openPapers.map OpenPaperTab.id).Nodup ∧
      ((s.openPapers.any fun p => p.id == paper.id) = true →
        addPaper paper s = s) := by
  refine ⟨h, ?_, ?_, by simp [clearAllPapers], ?_⟩
  · by_cases hmem : (s.openPapers.any fun p => p.id == paper.id) = true
    · simp [addPaper, hmem, h]
    · have hnot : ∀ p ∈ s.openPapers, ¬(p.id = paper.id) := by
        intro p hp
        intro hid
        exact hmem (List.any_eq_true.mpr ⟨p, hp, by simp [hid]⟩)
      have : paper.id ∉ s.openPapers.map OpenPaperTab.id := by
        intro hin
        rcases List.mem_map.mp hin with ⟨q, hq, hqid⟩
        exact hnot q hq hqid
      simp only [addPaper, Bool.not_eq_true'] at *
      rw [if_pos (by simpa using hmem)]
      simpa [List.nodup_append] using And.intro h this
  · have hsub : List.Sublist ((removePaper i s).openPapers) s.openPapers := by
      simp only [removePaper]
      exact List.filter_sublist s.openPapers
    exact (hsub.map OpenPaperTab.id).nodup h
  · intro hmem
    simp [addPaper, hmem]

theorem readerStore_id_nodup_witness :
    ((readerInitialState.openPapers.map OpenPaperTab.id).Nodup ∧
        ((setActivePaperId "a" readerInitialState).openPapers.map
          OpenPaperTab.id).Nodup ∧
        ((addPaper sampleTab readerInitialState).openPapers.map
          OpenPaperTab.id).Nodup) :=
  ⟨List.nodup_nil,
    (readerStore_id_nodup readerInitialState "a" sampleTab List.nodup_nil).1,
    (readerStore_id_nodup readerInitialState "a" sampleTab List.nodup_nil).2.1⟩

/-- C8: a blank (trim-empty) query leaves the papers list unfiltered;
otherwise `filteredPapers` is exactly the papers, in their original order,
whose lowercased title contains the lowercased query or one of whose authors'
lowercased names contains it. -/
theorem computeFilteredPapers_spec (papers : List SavedPaper) (q : String) :
    (strIsEmpty (jsTrim q) = true → computeFilteredPapers papers q = papers) ∧
      (strIsEmpty (jsTrim q) = false →
        (∀ p, p ∈ computeFilteredPapers papers q ↔
            p ∈ papers ∧ matchesQuery q p) ∧
          List.Sublist (computeFilteredPapers papers q) papers) := by
  constructor
  · intro hq
    simp [computeFilteredPapers, hq]
  · intro hq
    constructor
    · intro p
      simp [computeFilteredPapers, hq, List.mem_filter, strIncludes,
        matchesQuery, List.any_eq_true]
    · simp only [computeFilteredPapers, hq, Bool.not_false, if_pos]
      exact List.filter_sublist papers

theorem computeFilteredPapers_spec_witness :
    (strIsEmpty (jsTrim "ne") = false ∧
        (∀ p, p ∈ computeFilteredPapers [samplePaper1] "ne" ↔
          p ∈ [samplePaper1] ∧ matchesQuery "ne" p) ∧
          List.Sublist (computeFilteredPapers [samplePaper1] "ne")
            [samplePaper1]) :=
  ⟨by decide, (computeFilteredPapers_spec [samplePaper1] "ne").2 (by decide)⟩

/-- C5: with a truthy paper id, topic and graph selection,
`executeGraphGeneration` first sets the workflow step to `processing`, and in
every outcome appends exactly one result message, ends with the workflow
inactive, at step `complete` on an ok response and `topic` on a non-ok
response or a thrown error, issuing exactly one generation request. -/
theorem executeGraphGeneration_outcomes (now : Nat) (paperId : Option String)
    (net : GraphGenOutcome) (s : ChatState)
    (hPid : strTruthy paperId = true)
    (hTopic : strIsEmpty s.graphWorkflow.topic = false)
    (hGraph : strIsEmpty s.graphWorkflow.selectedGraphId = false) :
    ∃ final resultMsg,
      (executeGraphGeneration now paperId net s).1 =
          [graphGenProcessingState s, final] ∧
        (graphGenProcessingState s).graphWorkflow.step =
          WorkflowStep.processing ∧
        final.messages = s.messages ++ [resultMsg] ∧
        Message.isUser resultMsg = false ∧
        final.graphWorkflow.isActive = false ∧
        final.graphWorkflow.step = expectedFinalStep net ∧
        (executeGraphGeneration now paperId net s).2 =
          [{ method := "POST", url := "/api/graph-generation" }] := by
  have hcond : (!strTruthy paperId || strIsEmpty s.graphWorkflow.topic ||
      strIsEmpty s.graphWorkflow.selectedGraphId) = false := by
    simp [hPid, hTopic, hGraph]
  cases net with
  | ok result =>
      simp only [executeGraphGeneration, hcond, Bool.false_eq_true, if_false]
      exact ⟨_, _, rfl, rfl, rfl, rfl, rfl, rfl, trivial⟩
  | notOk errorField =>
      simp only [executeGraphGeneration, hcond, Bool.false_eq_true, if_false]
      exact ⟨_, _, rfl, rfl, rfl, rfl, rfl, rfl, trivial⟩
  | throwErr message =>
      simp only [executeGraphGeneration, hcond, Bool.false_eq_true, if_false]
      exact ⟨_, _, rfl, rfl, rfl, rfl, rfl, rfl, trivial⟩

theorem executeGraphGeneration_outcomes_witness :
    (strTruthy (some "p") = true ∧
        strIsEmpty chatState1.graphWorkflow.topic = false ∧
        strIsEmpty chatState1.graphWorkflow.selectedGraphId = false) ∧
      (∃ final resultMsg,
        (executeGraphGeneration 3 (some "p") (GraphGenOutcome.notOk none)
              chatState1).1 =
            [graphGenProcessingState chatState1, final] ∧
          (graphGenProcessingState chatState1).graphWorkflow.step =
            WorkflowStep.processing ∧
          final.messages = chatState1.messages ++ [resultMsg] ∧
          Message.isUser resultMsg = false ∧
          final.graphWorkflow.isActive = false ∧
          final.graphWorkflow.step =
            expectedFinalStep (GraphGenOutcome.notOk none) ∧
          (executeGraphGeneration 3 (some "p") (GraphGenOutcome.notOk none)
              chatState1).2 =
            [{ method := "POST", url := "/api/graph-generation" }]) :=
  ⟨⟨by decide, by decide, by decide⟩,
    executeGraphGeneration_outcomes 3 (some "p") (GraphGenOutcome.notOk none)
      chatState1 (by decide) (by decide) (by decide)⟩

/-- C6: when the paper id is absent, the topic is empty, or no graph is
selected, `executeGraphGeneration` returns at its guard, performing no state
update and issuing no request. -/
theorem executeGraphGeneration_guard (now : Nat) (paperId : Option String)
    (net : GraphGenOutcome) (s : ChatState)
    (h : strTruthy paperId = false ∨
      strIsEmpty s.graphWorkflow.topic = true ∨
      strIsEmpty s.graphWorkflow.selectedGraphId = true) :
    executeGraphGeneration now paperId net s = ([], []) := by
  unfold executeGraphGeneration
  rcases h with h | h | h <;> simp [h]

theorem executeGraphGeneration_guard_witness :
    strTruthy none = false ∧
      executeGraphGeneration 0 none (GraphGenOutcome.notOk none) chatState1 =
        ([], []) :=
  ⟨rfl,
    executeGraphGeneration_guard 0 none (GraphGenOutcome.notOk none)
      chatState1 (Or.inl rfl)⟩

theorem allowed_papersList :
    allowedEndpoint { method := "GET", url := "/api/papers" } :=
  Or.inl ⟨rfl, rfl⟩

theorem allowed_paperDelete (pid : String) :
    allowedEndpoint { method := "DELETE", url := "/api/papers/" ++ pid } :=
  Or.inr (Or.inl ⟨rfl, pid, rfl⟩)

theorem allowed_explain :
    allowedEndpoint { method := "POST", url := "/api/gemini/explain" } :=
  Or.inr (Or.inr (Or.inl ⟨rfl, rfl⟩))

theorem allowed_memoryGraphs :
    allowedEndpoint { method := "GET", url := "/api/memory/graphs" } :=
  Or.inr (Or.inr (Or.inr (Or.inl ⟨rfl, rfl⟩)))

theorem allowed_graphGen :
    allowedEndpoint { method := "POST", url := "/api/graph-generation" } :=
  Or.inr (Or.inr (Or.inr (Or.inr ⟨rfl, rfl⟩)))

theorem handleToolExecution_requests (tool : Tool) (prompt : String)
    (gf : GraphsFetchOutcome) (r : Request)
    (hr : r ∈ (handleToolExecution tool prompt gf).2.2) : allowedEndpoint r := by
  unfold handleToolExecution at hr
  by_cases h1 : tool.id = "video-generation"
  · simp [h1] at hr
  · by_cases h2 : tool.id = "graph-generation"
    · cases gf <;> simp [h1, h2, initializeGraphGeneration] at hr <;>
        subst hr <;> exact allowed_memoryGraphs
    · simp [h1, h2] at hr

/-- C3: every request any embedded operation can issue goes to one of the four
endpoint groups the spec names: paper listing, paper deletion, AI explanation,
or graph generation. -/
theorem ui_requests_four_endpoint_groups :
    (∀ net r, r ∈ (loadSavedPapers net).2 → allowedEndpoint r) ∧
      (∀ papers pid c net r, r ∈ (deletePaper papers pid c net).2.1 →
        allowedEndpoint r) ∧
      (∀ gf r, r ∈ (initializeGraphGeneration gf).2 → allowedEndpoint r) ∧
      (∀ now net gf s r, r ∈ (sendMessage now net gf s).2 →
        allowedEndpoint r) ∧
      (∀ now paperId net s r,
        r ∈ (executeGraphGeneration now paperId net s).2 →
        allowedEndpoint r) := by
  refine ⟨?_, ?_, ?_, ?_, ?_⟩
  · intro net r hr
    cases net <;> simp [loadSavedPapers] at hr <;> subst hr <;>
      exact allowed_papersList
  · intro papers pid c net r hr
    cases c with
    | false => simp [deletePaper] at hr
    | true =>
        cases net <;> simp [deletePaper] at hr <;> subst hr <;>
          exact allowed_paperDelete pid
  · intro gf r hr
    cases gf <;> simp [initializeGraphGeneration] at hr <;> subst hr <;>
      exact allowed_memoryGraphs
  · intro now net gf s r hr
    by_cases hg : (strIsEmpty (jsTrim s.inputValue) || s.isLoading) = true
    · simp [sendMessage, hg] at hr
    · rw [Bool.not_eq_true] at hg
      cases hsel : s.selectedTool with
      | some tool =>
          simp only [sendMessage, hg, Bool.false_eq_true, if_false, hsel] at hr
          exact handleToolExecution_requests tool s.inputValue gf r hr
      | none =>
          cases net <;>
            simp only [sendMessage, hg, Bool.false_eq_true, if_false,
              hsel, List.mem_singleton] at hr <;>
            subst hr <;> exact allowed_explain
  · intro now paperId net s r hr
    by_cases hg : (!strTruthy paperId || strIsEmpty s.graphWorkflow.topic ||
        strIsEmpty s.graphWorkflow.selectedGraphId) = true
    · simp [executeGraphGeneration, hg] at hr
    · rw [Bool.not_eq_true] at hg
      cases net <;>
        simp only [executeGraphGeneration, hg, Bool.false_eq_true, if_false,
          List.mem_singleton] at hr <;>
        subst hr <;> exact allowed_graphGen

theorem ui_requests_four_endpoint_groups_witness :
    (({ method := "GET", url := "/api/papers" } : Request) ∈
        (loadSavedPapers PapersFetchOutcome.notOk).2) ∧
      allowedEndpoint { method := "GET", url := "/api/papers" } :=
  ⟨by decide,
    ui_requests_four_endpoint_groups.1 PapersFetchOutcome.notOk _ (by decide)⟩

theorem isPrefixOf_cons_of_ne (d : Char) (ds : List Char) (c : Char)
    (cs : List Char) (h : c ≠ d) :
    List.isPrefixOf (d :: ds) (c :: cs) = false := by
  rw [List.isPrefixOf_cons₂]
  simp [Ne.symm h]

theorem replaceSpans_nil (d : Char) (ds pre post : List Char) :
    replaceSpans d ds pre post [] = [] := by
  simp [replaceSpans]

theorem replaceSpans_cons_skip (d : Char) (ds pre post : List Char)
    (c : Char) (cs : List Char)
    (h : List.isPrefixOf (d :: ds) (c :: cs) = false) :
    replaceSpans d ds pre post (c :: cs) =
      c :: replaceSpans d ds pre post cs := by
  rw [replaceSpans]
  simp [h]

theorem replaceSpans_cons_of_match (d : Char) (ds pre post : List Char)
    (c : Char) (cs body : List Char) (k : Nat)
    (hpre : List.isPrefixOf (d :: ds) (c :: cs) = true)
    (hscan : scanBody d ds (cs.drop ds.length) = some (body, k)) :
    replaceSpans d ds pre post (c :: cs) =
      pre ++ body ++ post ++
        replaceSpans d ds pre post ((cs.drop ds.length).drop k) := by
  rw [replaceSpans]
  simp [hpre, hscan]

theorem replaceSpans_cons_of_ne (d : Char) (ds pre post : List Char)
    (c : Char) (cs : List Char) (h : c ≠ d) :
    replaceSpans d ds pre post (c :: cs) =
      c :: replaceSpans d ds pre post cs :=
  replaceSpans_cons_skip d ds pre post c cs
    (isPrefixOf_cons_of_ne d ds c cs h)

theorem replaceSpans_id_of_forall_ne (d : Char) (ds pre post : List Char) :
    ∀ s : List Char, (∀ c ∈ s, c ≠ d) → replaceSpans d ds pre post s = s
  | [], _ => replaceSpans_nil d ds pre post
  | c :: cs, h => by
      rw [replaceSpans_cons_of_ne d ds pre post c cs
        (h c (List.mem_cons_self c cs))]
      rw [replaceSpans_id_of_forall_ne d ds pre post cs
        (fun y hy => h y (List.mem_cons_of_mem c hy))]

theorem replaceSpans_append_left (d : Char) (ds pre post : List Char) :
    ∀ (a t : List Char), (∀ c ∈ a, c ≠ d) →
      replaceSpans d ds pre post (a ++ t) = a ++ replaceSpans d ds pre post t
  | [], t, _ => by simp
  | c :: a, t, h => by
      rw [List.cons_append]
      rw [replaceSpans_cons_of_ne d ds pre post c (a ++ t)
        (h c (List.mem_cons_self c a))]
      rw [replaceSpans_append_left d ds pre post a t
        (fun y hy => h y (List.mem_cons_of_mem c hy))]
      rfl

theorem scanBody_found (d : Char) (ds : List Char) :
    ∀ (x r : List Char), (∀ c ∈ x, c ≠ d) → (∀ c ∈ x, c ≠ '\n') →
      scanBody d ds (x ++ d :: (ds ++ r)) =
        some (x, x.length + (ds.length + 1))
  | [], r, _, _ => by
      have hpre : List.isPrefixOf (d :: ds) (d :: (ds ++ r)) = true := by
        rw [List.isPrefixOf_cons₂]
        simp [List.isPrefixOf_iff_prefix]
      simp [scanBody, hpre]
  | c :: x, r, hd, hn => by
      have hpre := isPrefixOf_cons_of_ne d ds c (x ++ d :: (ds ++ r))
        (hd c (List.mem_cons_self c x))
      have hnl : ¬(c = '\n') := hn c (List.mem_cons_self c x)
      rw [List.cons_append, scanBody]
      rw [hpre]
      rw [if_neg hnl]
      rw [scanBody_found d ds x r
        (fun y hy => hd y (List.mem_cons_of_mem c hy))
        (fun y hy => hn y (List.mem_cons_of_mem c hy))]
      simp [Nat.add_assoc, Nat.add_comm, Nat.add_left_comm]

theorem replaceNewlines_append :
    ∀ a b : List Char,
      replaceNewlines (a ++ b) = replaceNewlines a ++ replaceNewlines b
  | [], b => by simp [replaceNewlines]
  | c :: a, b => by
      by_cases h : c = '\n' <;>
        simp [replaceNewlines, h, replaceNewlines_append a b]

theorem replaceNewlines_id (s : List Char) (h : ∀ c ∈ s, c ≠ '\n') :
    replaceNewlines s = s := by
  induction s with
  | nil => rfl
  | cons c cs ih =>
      rw [replaceNewlines]
      rw [if_neg (h c (List.mem_cons_self c cs))]
      rw [ih (fun y hy => h y (List.mem_cons_of_mem c hy))]

theorem plainStr_PlainL (s : String) (h : plainStr s = true) :
    PlainL s.data := by
  intro c hc
  have := List.all_eq_true.mp h c hc
  simpa [plainChar, Bool.and_eq_true, and_assoc] using this

theorem replaceSpans_span2 (d : Char) (pre post x r : List Char)
    (hd : ∀ c ∈ x, c ≠ d) (hn : ∀ c ∈ x, c ≠ '\n') :
    replaceSpans d [d] pre post (d :: d :: (x ++ d :: d :: r)) =
      pre ++ (x ++ (post ++ replaceSpans d [d] pre post r)) := by
  have hpre : List.isPrefixOf [d, d] (d :: d :: (x ++ d :: d :: r)) = true := by
    rw [List.isPrefixOf_cons₂, List.isPrefixOf_cons₂]
    simp
  have hscan : scanBody d [d] (x ++ d :: d :: r) = some (x, x.length + 2) := by
    have hsf := scanBody_found d [d] x r hd hn
    simpa using hsf
  have hrw := replaceSpans_cons_of_match d [d] pre post d
    (d :: (x ++ d :: d :: r)) x (x.length + 2) hpre hscan
  rw [hrw]
  have hrest : ((d :: (x ++ d :: d :: r) : List Char).drop
      ([d] : List Char).length).drop (x.length + 2) = r := by
    have h1 : ((d :: (x ++ d :: d :: r) : List Char).drop
        ([d] : List Char).length) = x ++ d :: d :: r := rfl
    rw [h1]
    have h2 : x ++ d :: d :: r = (x ++ [d, d]) ++ r := by simp
    rw [h2, List.drop_left' (by simp)]
  rw [hrest]
  simp

theorem replaceSpans_span1 (d : Char) (pre post x r : List Char)
    (hd : ∀ c ∈ x, c ≠ d) (hn : ∀ c ∈ x, c ≠ '\n') :
    replaceSpans d [] pre post (d :: (x ++ d :: r)) =
      pre ++ (x ++ (post ++ replaceSpans d [] pre post r)) := by
  have hpre : List.isPrefixOf [d] (d :: (x ++ d :: r)) = true := by
    rw [List.isPrefixOf_cons₂]
    simp
  have hscan : scanBody d [] (x ++ d :: r) = some (x, x.length + 1) := by
    have hsf := scanBody_found d [] x r hd hn
    simpa using hsf
  have hrw := replaceSpans_cons_of_match d [] pre post d
    (x ++ d :: r) x (x.length + 1) hpre hscan
  rw [hrw]
  have hrest : (((x ++ d :: r) : List Char).drop
      ([] : List Char).length).drop (x.length + 1) = r := by
    have h1 : (((x ++ d :: r) : List Char).drop
        ([] : List Char).length) = x ++ d :: r := rfl
    rw [h1]
    have h2 : x ++ d :: r = (x ++ [d]) ++ r := by simp
    rw [h2, List.drop_left' (by simp)]
  rw [hrest]
  simp

theorem replaceSpans_single_stars (pre post x b : List Char)
    (hx : ∀ c ∈ x, c ≠ '*') (hb : ∀ c ∈ b, c ≠ '*') (hne : x ≠ []) :
    replaceSpans '*' ['*'] pre post ('*' :: (x ++ '*' :: b)) =
      '*' :: (x ++ '*' :: b) := by
  have hstep : replaceSpans '*' ['*'] pre post ('*' :: b) = '*' :: b := by
    have hpre2 : List.isPrefixOf ['*', '*'] ('*' :: b) = false := by
      cases b with
      | nil => rfl
      | cons b0 bs =>
          rw [List.isPrefixOf_cons₂, List.isPrefixOf_cons₂]
          simp [Ne.symm (hb b0 (List.mem_cons_self b0 bs))]
    rw [replaceSpans_cons_skip _ _ _ _ _ _ hpre2]
    rw [replaceSpans_id_of_forall_ne '*' ['*'] pre post b hb]
  cases x with
  | nil => exact absurd rfl hne
  | cons x0 xs =>
      have hx0 : x0 ≠ '*' := hx x0 (List.mem_cons_self x0 xs)
      have hpre : List.isPrefixOf ['*', '*']
          ('*' :: ((x0 :: xs) ++ '*' :: b)) = false := by
        rw [List.cons_append, List.isPrefixOf_cons₂, List.isPrefixOf_cons₂]
        simp [Ne.symm hx0]
      rw [replaceSpans_cons_skip _ _ _ _ _ _ hpre]
      rw [replaceSpans_append_left '*' ['*'] pre post (x0 :: xs) ('*' :: b) hx]
      rw [hstep]

theorem formatList_bold (A X B : List Char)
    (hA : PlainL A) (hX : PlainL X) (hB : PlainL B) :
    replaceNewlines (codePass (emPass (boldPass
        (A ++ '*' :: '*' :: (X ++ '*' :: '*' :: B))))) =
      A ++ ("<strong>".data ++ (X ++ ("</strong>".data ++ B))) := by
  have hAs : ∀ c ∈ A, c ≠ '*' := fun c hc => (hA c hc).1
  have hXs : ∀ c ∈ X, c ≠ '*' := fun c hc => (hX c hc).1
  have hBs : ∀ c ∈ B, c ≠ '*' := fun c hc => (hB c hc).1
  have h1 : boldPass (A ++ '*' :: '*' :: (X ++ '*' :: '*' :: B)) =
      A ++ ("<strong>".data ++ (X ++ ("</strong>".data ++ B))) := by
    unfold boldPass
    rw [replaceSpans_append_left _ _ _ _ A _ hAs]
    rw [replaceSpans_span2 '*' _ _ X B hXs (fun c hc => (hX c hc).2.2)]
    rw [replaceSpans_id_of_forall_ne _ _ _ _ B hBs]
  have hone : ∀ c ∈ A ++ ("<strong>".data ++ (X ++ ("</strong>".data ++ B))),
      c ≠ '*' ∧ c ≠ backtickChar ∧ c ≠ '\n' := by
    intro c hc
    rcases List.mem_append.mp hc with h | h
    · exact hA c h
    rcases List.mem_append.mp h with h | h
    · exact (by decide : ∀ c ∈ ("<strong>".data : List Char),
        c ≠ '*' ∧ c ≠ backtickChar ∧ c ≠ '\n') c h
    rcases List.mem_append.mp h with h | h
    · exact hX c h
    rcases List.mem_append.mp h with h | h
    · exact (by decide : ∀ c ∈ ("</strong>".data : List Char),
        c ≠ '*' ∧ c ≠ backtickChar ∧ c ≠ '\n') c h
    · exact hB c h
  have h2 : emPass (A ++ ("<strong>".data ++ (X ++ ("</strong>".data ++ B)))) =
      A ++ ("<strong>".data ++ (X ++ ("</strong>".data ++ B))) :=
    replaceSpans_id_of_forall_ne _ _ _ _ _ (fun c hc => (hone c hc).1)
  have h3 : codePass (A ++ ("<strong>".data ++ (X ++ ("</strong>".data ++ B)))) =
      A ++ ("<strong>".data ++ (X ++ ("</strong>".data ++ B))) :=
    replaceSpans_id_of_forall_ne _ _ _ _ _ (fun c hc => (hone c hc).2.1)
  have h4 : replaceNewlines
      (A ++ ("<strong>".data ++ (X ++ ("</strong>".data ++ B)))) =
      A ++ ("<strong>".data ++ (X ++ ("</strong>".data ++ B))) :=
    replaceNewlines_id _ (fun c hc => (hone c hc).2.2)
  rw [h1, h2, h3, h4]

theorem formatList_em (A X B : List Char)
    (hA : PlainL A) (hX : PlainL X) (hB : PlainL B) (hne : X ≠ []) :
    replaceNewlines (codePass (emPass (boldPass
        (A ++ '*' :: (X ++ '*' :: B))))) =
      A ++ ("<em>".data ++ (X ++ ("</em>".data ++ B))) := by
  have hAs : ∀ c ∈ A, c ≠ '*' := fun c hc => (hA c hc).1
  have hXs : ∀ c ∈ X, c ≠ '*' := fun c hc => (hX c hc).1
  have hBs : ∀ c ∈ B, c ≠ '*' := fun c hc => (hB c hc).1
  have h1 : boldPass (A ++ '*' :: (X ++ '*' :: B)) =
      A ++ '*' :: (X ++ '*' :: B) := by
    unfold boldPass
    rw [replaceSpans_append_left _ _ _ _ A _ hAs]
    rw [replaceSpans_single_stars _ _ X B hXs hBs hne]
  have h2 : emPass (A ++ '*' :: (X ++ '*' :: B)) =
      A ++ ("<em>".data ++ (X ++ ("</em>".data ++ B))) := by
    unfold emPass
    rw [replaceSpans_append_left _ _ _ _ A _ hAs]
    rw [replaceSpans_span1 '*' _ _ X B hXs (fun c hc => (hX c hc).2.2)]
    rw [replaceSpans_id_of_forall_ne _ _ _ _ B hBs]
  have hone : ∀ c ∈ A ++ ("<em>".data ++ (X ++ ("</em>".data ++ B))),
      c ≠ '*' ∧ c ≠ backtickChar ∧ c ≠ '\n' := by
    intro c hc
    rcases List.mem_append.mp hc with h | h
    · exact hA c h
    rcases List.mem_append.mp h with h | h
    · exact (by decide : ∀ c ∈ ("<em>".data : List Char),
        c ≠ '*' ∧ c ≠ backtickChar ∧ c ≠ '\n') c h
    rcases List.mem_append.mp h with h | h
    · exact hX c h
    rcases List.mem_append.mp h with h | h
    · exact (by decide : ∀ c ∈ ("</em>".data : List Char),
        c ≠ '*' ∧ c ≠ backtickChar ∧ c ≠ '\n') c h
    · exact hB c h
  have h3 : codePass (A ++ ("<em>".data ++ (X ++ ("</em>".data ++ B)))) =
      A ++ ("<em>".data ++ (X ++ ("</em>".data ++ B))) :=
    replaceSpans_id_of_forall_ne _ _ _ _ _ (fun c hc => (hone c hc).2.1)
  have h4 : replaceNewlines
      (A ++ ("<em>".data ++ (X ++ ("</em>".data ++ B)))) =
      A ++ ("<em>".data ++ (X ++ ("</em>".data ++ B))) :=
    replaceNewlines_id _ (fun c hc => (hone c hc).2.2)
  rw [h1, h2, h3, h4]

theorem formatList_code (A X B : List Char)
    (hA : PlainL A) (hX : PlainL X) (hB : PlainL B) :
    replaceNewlines (codePass (emPass (boldPass
        (A ++ backtickChar :: (X ++ backtickChar :: B))))) =
      A ++ (codeOpenTag.data ++ (X ++ ("</code>".data ++ B))) := by
  have hin : ∀ c ∈ A ++ backtickChar :: (X ++ backtickChar :: B),
      c ≠ '*' ∧ c ≠ '\n' := by
    intro c hc
    rcases List.mem_append.mp hc with h | h
    · exact ⟨(hA c h).1, (hA c h).2.2⟩
    rcases List.mem_cons.mp h with h | h
    · subst h
      exact ⟨by decide, by decide⟩
    rcases List.mem_append.mp h with h | h
    · exact ⟨(hX c h).1, (hX c h).2.2⟩
    rcases List.mem_cons.mp h with h | h
    · subst h
      exact ⟨by decide, by decide⟩
    · exact ⟨(hB c h).1, (hB c h).2.2⟩
  have h1 : boldPass (A ++ backtickChar :: (X ++ backtickChar :: B)) =
      A ++ backtickChar :: (X ++ backtickChar :: B) :=
    replaceSpans_id_of_forall_ne _ _ _ _ _ (fun c hc => (hin c hc).1)
  have h2 : emPass (A ++ backtickChar :: (X ++ backtickChar :: B)) =
      A ++ backtickChar :: (X ++ backtickChar :: B) :=
    replaceSpans_id_of_forall_ne _ _ _ _ _ (fun c hc => (hin c hc).1)
  have h3 : codePass (A ++ backtickChar :: (X ++ backtickChar :: B)) =
      A ++ (codeOpenTag.data ++ (X ++ ("</code>".data ++ B))) := by
    unfold codePass
    rw [replaceSpans_append_left _ _ _ _ A _
      (fun c hc => (hA c hc).2.1)]
    rw [replaceSpans_span1 backtickChar _ _ X B
      (fun c hc => (hX c hc).2.1) (fun c hc => (hX c hc).2.2)]
    rw [replaceSpans_id_of_forall_ne _ _ _ _ B
      (fun c hc => (hB c hc).2.1)]
  have hout : ∀ c ∈ A ++ (codeOpenTag.data ++ (X ++ ("</code>".data ++ B))),
      c ≠ '\n' := by
    intro c hc
    rcases List.mem_append.mp hc with h | h
    · exact (hA c h).2.2
    rcases List.mem_append.mp h with h | h
    · exact (by decide : ∀ c ∈ (codeOpenTag.data : List Char),
        c ≠ '\n') c h
    rcases List.mem_append.mp h with h | h
    · exact (hX c h).2.2
    rcases List.mem_append.mp h with h | h
    · exact (by decide : ∀ c ∈ ("</code>".data : List Char), c ≠ '\n') c h
    · exact (hB c h).2.2
  have h4 : replaceNewlines
      (A ++ (codeOpenTag.data ++ (X ++ ("</code>".data ++ B)))) =
      A ++ (codeOpenTag.data ++ (X ++ ("</code>".data ++ B))) :=
    replaceNewlines_id _ hout
  rw [h1, h2, h3, h4]

theorem formatList_newline (A B : List Char)
    (hA : PlainL A) (hB : PlainL B) :
    replaceNewlines (codePass (emPass (boldPass (A ++ '\n' :: B)))) =
      A ++ '<' :: 'b' :: 'r' :: '>' :: B := by
  have hin : ∀ c ∈ A ++ '\n' :: B, c ≠ '*' ∧ c ≠ backtickChar := by
    intro c hc
    rcases List.mem_append.mp hc with h | h
    · exact ⟨(hA c h).1, (hA c h).2.1⟩
    rcases List.mem_cons.mp h with h | h
    · subst h
      exact ⟨by decide, by decide⟩
    · exact ⟨(hB c h).1, (hB c h).2.1⟩
  have h1 : boldPass (A ++ '\n' :: B) = A ++ '\n' :: B :=
    replaceSpans_id_of_forall_ne _ _ _ _ _ (fun c hc => (hin c hc).1)
  have h2 : emPass (A ++ '\n' :: B) = A ++ '\n' :: B :=
    replaceSpans_id_of_forall_ne _ _ _ _ _ (fun c hc => (hin c hc).1)
  have h3 : codePass (A ++ '\n' :: B) = A ++ '\n' :: B :=
    replaceSpans_id_of_forall_ne _ _ _ _ _ (fun c hc => (hin c hc).2)
  rw [h1, h2, h3]
  rw [replaceNewlines_append A ('\n' :: B)]
  rw [replaceNewlines_id A (fun c hc => (hA c hc).2.2)]
  rw [replaceNewlines]
  rw [if_pos rfl]
  rw [replaceNewlines_id B (fun c hc => (hB c hc).2.2)]

theorem formatList_plain (A : List Char) (hA : PlainL A) :
    replaceNewlines (codePass (emPass (boldPass A))) = A := by
  have h1 : boldPass A = A :=
    replaceSpans_id_of_forall_ne _ _ _ _ _ (fun c hc => (hA c hc).1)
  have h2 : emPass A = A :=
    replaceSpans_id_of_forall_ne _ _ _ _ _ (fun c hc => (hA c hc).1)
  have h3 : codePass A = A :=
    replaceSpans_id_of_forall_ne _ _ _ _ _ (fun c hc => (hA c hc).2.1)
  have h4 : replaceNewlines A = A :=
    replaceNewlines_id A (fun c hc => (hA c hc).2.2)
  rw [h1, h2, h3, h4]

/-- C9: `formatMessageContent` applies the four global replacements in order:
on plain surrounding text, a `**x**` span becomes `<strong>x</strong>`, a
remaining `*x*` span becomes `<em>x</em>`, a backtick span becomes the styled
code element containing x, each newline becomes `<br>`, and plain text is left
unchanged. -/
theorem formatMessageContent_spec (a x b : String)
    (ha : plainStr a = true) (hx : plainStr x = true)
    (hb : plainStr b = true) :
    formatMessageContent (a ++ "**" ++ x ++ "**" ++ b) =
        a ++ "<strong>" ++ x ++ "</strong>" ++ b ∧
      (x ≠ "" → formatMessageContent (a ++ "*" ++ x ++ "*" ++ b) =
        a ++ "<em>" ++ x ++ "</em>" ++ b) ∧
      formatMessageContent (a ++ "`" ++ x ++ "`" ++ b) =
        a ++ codeOpenTag ++ x ++ "</code>" ++ b ∧
      formatMessageContent (a ++ "\n" ++ b) = a ++ "<br>" ++ b ∧
      formatMessageContent a = a := by
  have hA := plainStr_PlainL a ha
  have hX := plainStr_PlainL x hx
  have hB := plainStr_PlainL b hb
  refine ⟨?_, ?_, ?_, ?_, ?_⟩
  · refine congrArg String.mk ?_
    have e1 : ("**" : String).data = ['*', '*'] := rfl
    simp only [String.data_append, e1, List.append_assoc, List.cons_append,
      List.nil_append]
    exact formatList_bold a.data x.data b.data hA hX hB
  · intro hne
    refine congrArg String.mk ?_
    have e1 : ("*" : String).data = ['*'] := rfl
    simp only [String.data_append, e1, List.append_assoc, List.cons_append,
      List.nil_append]
    exact formatList_em a.data x.data b.data hA hX hB
      (fun hl => hne (congrArg String.mk hl))
  · refine congrArg String.mk ?_
    have e1 : ("`" : String).data = [backtickChar] := by decide
    simp only [String.data_append, e1, List.append_assoc, List.cons_append,
      List.nil_append]
    exact formatList_code a.data x.data b.data hA hX hB
  · refine congrArg String.mk ?_
    have e1 : ("\n" : String).data = ['\n'] := rfl
    have e2 : ("<br>" : String).data = ['<', 'b', 'r', '>'] := rfl
    simp only [String.data_append, e1, e2, List.append_assoc,
      List.cons_append, List.nil_append]
    exact formatList_newline a.data b.data hA hB
  · refine congrArg String.mk ?_
    exact formatList_plain a.data hA

theorem formatMessageContent_spec_witness :
    (plainStr "A " = true ∧ plainStr "bold" = true ∧ plainStr "!" = true) ∧
      (formatMessageContent ("A " ++ "**" ++ "bold" ++ "**" ++ "!") =
          "A " ++ "<strong>" ++ "bold" ++ "</strong>" ++ "!" ∧
        (("bold" : String) ≠ "" →
          formatMessageContent ("A " ++ "*" ++ "bold" ++ "*" ++ "!") =
            "A " ++ "<em>" ++ "bold" ++ "</em>" ++ "!") ∧
        formatMessageContent ("A " ++ "`" ++ "bold" ++ "`" ++ "!") =
          "A " ++ codeOpenTag ++ "bold" ++ "</code>" ++ "!" ∧
        formatMessageContent ("A " ++ "\n" ++ "!") = "A " ++ "<br>" ++ "!" ∧
        formatMessageContent "A " = "A ") :=
  ⟨⟨by decide, by decide, by decide⟩,
    formatMessageContent_spec "A " "bold" "!" (by decide) (by decide)
      (by decide)⟩

/-- C10: the upload page's mount effect performs exactly one router action, a
`replace` (not a `push`) to `/reader`, and the page renders only the static
redirect placeholder. -/
theorem uploadRedirectPage_stub :
    uploadRedirectPageMountEffect = [RouterAction.replace "/reader"] ∧
      uploadRedirectPageRenderText = "Redirecting to Reader..." :=
  ⟨rfl, rfl⟩

end PaperTrail
